import Mathlib

/-!
Shallow embedding of the blogicum blog application's access-control views
(`blog/views.py`): the data model (Post, Category, Comment, User), the
visibility guard of the post detail view, the home / category / profile
feeds, and the mutating endpoints (create, edit, delete of posts and
comments, profile edit).  Time is an explicit parameter `now : Nat`
(`timezone.now()`); the relational store is a `State` of in-memory lists;
each endpoint is a function from `State` (and the request data) to
`State × Response`, so that frame properties (what a request does NOT
change) are provable.
-/

/-- A user record (`django.contrib.auth.models.User`): identity provider. -/
structure User where
  id : Nat
  username : String
  first_name : String
  last_name : String
  email : String
  deriving DecidableEq, Repr

/-- A blog category: `slug` is its URL key, `is_published` gates visibility. -/
structure Category where
  id : Nat
  title : String
  slug : String
  is_published : Bool
  deriving DecidableEq, Repr

/-- A post row.  `author` and `category` are foreign keys (row ids);
`location` and `image` are optional; `pub_date` is a timestamp (a future
`pub_date` means a scheduled post). -/
structure Post where
  id : Nat
  title : String
  text : String
  image : Option String
  author : Nat
  category : Nat
  location : Option Nat
  is_published : Bool
  pub_date : Nat
  created_at : Nat
  deriving DecidableEq, Repr

/-- A comment row: `post` and `author` are foreign keys (row ids). -/
structure Comment where
  id : Nat
  text : String
  post : Nat
  author : Nat
  created_at : Nat
  deriving DecidableEq, Repr

/-- The identity of the requesting viewer: the anonymous sentinel
(`AnonymousUser`) or an authenticated user identified by id. -/
inductive Viewer where
  | anon : Viewer
  | auth (uid : Nat) : Viewer
  deriving DecidableEq, Repr

/-- The relational store: the Post/Category/Comment/User tables. -/
structure State where
  users : List User
  categories : List Category
  posts : List Post
  comments : List Comment
  deriving DecidableEq, Repr

/-- The observable outcome of a request. -/
inductive Response where
  | renderDetail (post : Post) (comments : List Comment)
  | renderForm
  | notFound
  | redirectToLogin
  | redirectToDetail (post_id : Nat)
  | redirectToIndex
  | redirectToProfile (username : String)
  deriving DecidableEq, Repr

/-- Single-row lookup `Post.objects.get(id=post_id)` /
`get_object_or_404(Post, id=post_id)`. -/
def findPost (s : State) (post_id : Nat) : Option Post :=
  s.posts.find? (fun p => p.id == post_id)

/-- Single-row lookup of a category by id (resolving the `post.category`
foreign key). -/
def findCategory (s : State) (cid : Nat) : Option Category :=
  s.categories.find? (fun c => c.id == cid)

/-- Single-row lookup of a user by id (resolving the `author` foreign key). -/
def findUser (s : State) (uid : Nat) : Option User :=
  s.users.find? (fun u => u.id == uid)

/-- `get_object_or_404(Comment, id=comment_id, post__id=post_id)` — the
`get_object` of `CommentUpdateView` / `CommentDeleteView`. -/
def findComment (s : State) (comment_id post_id : Nat) : Option Comment :=
  s.comments.find? (fun c => c.id == comment_id && c.post == post_id)

/-- `post.category.is_published`, equivalently the join
`category__is_published=True`: the publication flag of the post's category
(a dangling reference matches nothing, as in an inner join). -/
def categoryIsPublished (s : State) (p : Post) : Bool :=
  match findCategory s p.category with
  | some c => c.is_published
  | none => false

/-- `request.user.is_authenticated`. -/
def isAuthenticated : Viewer → Bool
  | .anon => false
  | .auth _ => true

/-- The comparison `request.user == item.author`: the anonymous sentinel
equals no user. -/
def viewerIsAuthor (v : Viewer) (author : Nat) : Bool :=
  match v with
  | .anon => false
  | .auth u => u == author

/-- The id of an authenticated viewer (only used behind an
`isAuthenticated` guard; 0 for the anonymous sentinel). -/
def viewerId : Viewer → Nat
  | .anon => 0
  | .auth u => u

/-- `request.user.username` for an authenticated viewer. -/
def viewerUsername (s : State) (v : Viewer) : String :=
  match findUser s (viewerId v) with
  | some u => u.username
  | none => ""

/-- `Comment.objects.filter(post=post)` in submission order, as used by
`PostDetailView.get_context_data`. -/
def commentsOf (s : State) (post_id : Nat) : List Comment :=
  s.comments.filter (fun c => c.post == post_id)

/-- The `comment_count=Count('comment')` annotation of a post. -/
def comment_count (s : State) (p : Post) : Nat :=
  (commentsOf s p.id).length

/-- `PostDetailView.dispatch`: load the post (absent id means NotFound);
if the viewer is not the author and the post is unpublished, or its
category is unpublished, or its `pub_date` is in the future, answer
NotFound; otherwise render the post with its comment list. -/
def post_detail_dispatch (s : State) (v : Viewer) (post_id now : Nat) : Response :=
  match findPost s post_id with
  | none => .notFound
  | some p =>
      if !(viewerIsAuthor v p.author) &&
          (!p.is_published || !(categoryIsPublished s p) || decide (now < p.pub_date)) then
        .notFound
      else
        .renderDetail p (commentsOf s p.id)

/-- `PostListView.get_queryset` (the home feed): filter
`pub_date__lte=now, is_published=True, category__is_published=True`,
annotate each post with its comment count, order by `-pub_date`. -/
def postList_get_queryset (s : State) (now : Nat) : List (Post × Nat) :=
  ((s.posts.filter
      (fun p => decide (p.pub_date ≤ now) && p.is_published && categoryIsPublished s p)).map
    (fun p => (p, comment_count s p))).mergeSort
      (fun a b => decide (b.1.pub_date ≤ a.1.pub_date))

/-- Modelled from the spec: the Post model's default queryset ordering (the
model `Meta` lives in `models.py`, which is not among the sources).  The
listing contract says feeds "order by recency", so the default ordering is
taken to be descending `pub_date`. -/
def defaultPostOrdering (l : List Post) : List Post :=
  l.mergeSort (fun a b => decide (b.pub_date ≤ a.pub_date))

/-- The `category_posts` view: `get_object_or_404(Category,
slug=category_slug, is_published=True)` (`none` models the 404 page), then
`category.posts.filter(is_published=True, pub_date__lte=now)` in the
default model ordering (see `defaultPostOrdering`). -/
def category_posts (s : State) (category_slug : String) (now : Nat) :
    Option (List Post) :=
  match s.categories.find? (fun c => c.slug == category_slug && c.is_published) with
  | none => none
  | some category =>
      some (defaultPostOrdering (s.posts.filter
        (fun p => p.category == category.id && p.is_published && decide (p.pub_date ≤ now))))

/-- The join `author__username=username` of `ProfileListView.get_queryset`. -/
def authorUsernameIs (s : State) (p : Post) (username : String) : Bool :=
  match findUser s p.author with
  | some u => u.username == username
  | none => false

/-- `ProfileListView.get_queryset` (the profile feed): all posts whose
author has the requested username — no visibility filter and no viewer
parameter at all — annotated with their comment count and ordered by
`-pub_date`. -/
def profile_get_queryset (s : State) (username : String) : List (Post × Nat) :=
  ((s.posts.filter (fun p => authorUsernameIs s p username)).map
    (fun p => (p, comment_count s p))).mergeSort
      (fun a b => decide (b.1.pub_date ≤ a.1.pub_date))

/-- The data of the bound `PostUpdateView` form
(`fields = ('title', 'text', 'location', 'category', 'image', 'pub_date')`). -/
structure PostFormData where
  title : String
  text : String
  location : Option Nat
  category : Nat
  image : Option String
  pub_date : Nat
  deriving DecidableEq, Repr

/-- Applying the validated update form to a post instance (the fields the
form is allowed to touch; `id`, `author` and `created_at` are not among
them). -/
def applyPostForm (p : Post) (f : PostFormData) : Post :=
  { p with title := f.title, text := f.text, location := f.location,
           category := f.category, image := f.image, pub_date := f.pub_date }

/-- Saving an updated post row back into the store. -/
def updatePostIn (s : State) (p : Post) : State :=
  { s with posts := s.posts.map (fun q => if q.id == p.id then p else q) }

/-- `PostUpdateView` request handling.  `OnlyAuthorMixin.dispatch` runs
first: it calls `get_object` (absent post id means NotFound) and redirects
any viewer whose identity differs from the post's author — the anonymous
sentinel included — to the post's detail page; only then does
`super().dispatch` reach `LoginRequiredMixin` (login redirect) and the
`UpdateView` machinery, which saves the validated form and redirects to the
detail page (`get_success_url`), re-rendering the form when invalid. -/
def post_update_dispatch (s : State) (v : Viewer) (post_id : Nat)
    (valid : Bool) (f : PostFormData) : State × Response :=
  match findPost s post_id with
  | none => (s, .notFound)
  | some p =>
      if !(viewerIsAuthor v p.author) then
        (s, .redirectToDetail post_id)
      else if !(isAuthenticated v) then
        (s, .redirectToLogin)
      else if valid then
        (updatePostIn s (applyPostForm p f), .redirectToDetail p.id)
      else
        (s, .renderForm)

/-- `PostDeleteView` request handling: same `OnlyAuthorMixin` guard order
as `post_update_dispatch`; on success the post row is deleted (dependent
comment rows go with it, the foreign-key cascade) and the viewer is
redirected to the index page (`success_url`). -/
def post_delete_dispatch (s : State) (v : Viewer) (post_id : Nat) :
    State × Response :=
  match findPost s post_id with
  | none => (s, .notFound)
  | some p =>
      if !(viewerIsAuthor v p.author) then
        (s, .redirectToDetail post_id)
      else if !(isAuthenticated v) then
        (s, .redirectToLogin)
      else
        let posts' := s.posts.filter (fun q => !(q.id == p.id))
        let comments' := s.comments.filter (fun c => !(c.post == p.id))
        ({ s with posts := posts', comments := comments' }, .redirectToIndex)

/-- `CommentUpdateView` request handling: `get_object` is
`get_object_or_404(Comment, id=comment_id, post__id=post_id)`; the
`OnlyAuthorMixin` guard redirects every non-author to the post's detail
page; the author saves the validated single-field form (`fields =
('text',)`) and is redirected to the post's detail page. -/
def comment_update_dispatch (s : State) (v : Viewer) (post_id comment_id : Nat)
    (valid : Bool) (text : String) : State × Response :=
  match findComment s comment_id post_id with
  | none => (s, .notFound)
  | some c =>
      if !(viewerIsAuthor v c.author) then
        (s, .redirectToDetail post_id)
      else if !(isAuthenticated v) then
        (s, .redirectToLogin)
      else if valid then
        let edited := s.comments.map
          (fun d => if d.id == c.id then { d with text := text } else d)
        ({ s with comments := edited }, .redirectToDetail c.post)
      else
        (s, .renderForm)

/-- `CommentDeleteView` request handling: same lookup and guard order as
`comment_update_dispatch`; on success the comment row is deleted and the
viewer is redirected to the post's detail page. -/
def comment_delete_dispatch (s : State) (v : Viewer) (post_id comment_id : Nat) :
    State × Response :=
  match findComment s comment_id post_id with
  | none => (s, .notFound)
  | some c =>
      if !(viewerIsAuthor v c.author) then
        (s, .redirectToDetail post_id)
      else if !(isAuthenticated v) then
        (s, .redirectToLogin)
      else
        ({ s with comments := s.comments.filter (fun d => !(d.id == c.id)) },
         .redirectToDetail c.post)

/-- `add_comment`: `@login_required` redirects the anonymous viewer to the
login flow; `get_object_or_404(Post, id=post_id)`; on a valid form the
instance the form produced (`form.save(commit=False)` — here an arbitrary
`formInstance`, whatever the client submitted, any author value included)
gets its `post` and `author` fields overwritten server-side and is saved;
valid or not, the response is a redirect to the post's detail page (an
invalid form is NOT re-rendered: its errors are discarded). -/
def add_comment (s : State) (v : Viewer) (post_id : Nat)
    (valid : Bool) (formInstance : Comment) : State × Response :=
  if !(isAuthenticated v) then (s, .redirectToLogin)
  else
    match findPost s post_id with
    | none => (s, .notFound)
    | some post =>
        if valid then
          let newComment := { formInstance with post := post.id, author := viewerId v }
          ({ s with comments := s.comments ++ [newComment] },
           .redirectToDetail post.id)
        else
          (s, .redirectToDetail post.id)

/-- `PostCreateView` request handling: `LoginRequiredMixin` redirects the
anonymous viewer to the login flow; `form_valid` overwrites
`form.instance.author` with `request.user` (and re-assigns the cleaned
`pub_date`, already on the instance) before saving, so `formInstance` is
whatever the form built from client input and the stored author is forced;
success redirects to the viewer's profile; an invalid form is re-rendered. -/
def post_create_dispatch (s : State) (v : Viewer) (valid : Bool)
    (formInstance : Post) : State × Response :=
  if !(isAuthenticated v) then (s, .redirectToLogin)
  else if valid then
    let newPost := { formInstance with author := viewerId v }
    ({ s with posts := s.posts ++ [newPost] },
     .redirectToProfile (viewerUsername s v))
  else (s, .renderForm)

/-- Applying the profile-edit form
(`fields = ['first_name', 'last_name', 'username', 'email']`). -/
structure UserFormData where
  first_name : String
  last_name : String
  username : String
  email : String
  deriving DecidableEq, Repr

def applyUserForm (u : User) (f : UserFormData) : User :=
  { u with first_name := f.first_name, last_name := f.last_name,
           username := f.username, email := f.email }

/-- `ProfileUpdateView` request handling: `LoginRequiredMixin` redirects the
anonymous viewer to the login flow; `get_object` returns `self.request.user`,
so the row updated is always the current viewer's own, whatever identifier
(`requested_pk`) the request carries; success redirects to the profile of the
(possibly renamed) viewer; an invalid form is re-rendered. -/
def profile_update_dispatch (s : State) (v : Viewer) (requested_pk : Nat)
    (valid : Bool) (f : UserFormData) : State × Response :=
  match v with
  | .anon => (s, .redirectToLogin)
  | .auth uid =>
      if valid then
        let users' := s.users.map
          (fun w => if w.id == uid then applyUserForm w f else w)
        ({ s with users := users' }, .redirectToProfile f.username)
      else (s, .renderForm)

/-! Helper lemmas about the recency ordering, shared by the feed theorems. -/

/-- A merge sort by descending `pub_date` of an annotated feed is pairwise
sorted by recency. -/
theorem pairwise_recency_ann (l : List (Post × Nat)) :
    List.Pairwise (fun a b : Post × Nat => b.1.pub_date ≤ a.1.pub_date)
      (l.mergeSort (fun a b => decide (b.1.pub_date ≤ a.1.pub_date))) := by
  have h := @List.sorted_mergeSort (Post × Nat)
      (fun a b => decide (b.1.pub_date ≤ a.1.pub_date))
      (by
        intro a b c hab hbc
        simp only [decide_eq_true_eq] at hab hbc ⊢
        exact le_trans hbc hab)
      (by
        intro a b
        simp only [Bool.or_eq_true, decide_eq_true_eq]
        exact Nat.le_total b.1.pub_date a.1.pub_date) l
  exact h.imp (fun hab => by simpa using hab)

/-- A merge sort by descending `pub_date` of a plain post list is pairwise
sorted by recency. -/
theorem pairwise_recency_posts (l : List Post) :
    List.Pairwise (fun a b : Post => b.pub_date ≤ a.pub_date)
      (defaultPostOrdering l) := by
  have h := @List.sorted_mergeSort Post
      (fun a b => decide (b.pub_date ≤ a.pub_date))
      (by
        intro a b c hab hbc
        simp only [decide_eq_true_eq] at hab hbc ⊢
        exact le_trans hbc hab)
      (by
        intro a b
        simp only [Bool.or_eq_true, decide_eq_true_eq]
        exact Nat.le_total b.pub_date a.pub_date) l
  exact h.imp (fun hab => by simpa using hab)

/-- Membership in an annotated, recency-sorted feed built from a filtered
post list. -/
theorem mem_annotated_feed (l : List Post) (s : State) (p : Post) (n : Nat) :
    ((p, n) ∈ (l.map (fun q => (q, comment_count s q))).mergeSort
        (fun a b => decide (b.1.pub_date ≤ a.1.pub_date))) ↔
      (p ∈ l ∧ n = comment_count s p) := by
  rw [List.mem_mergeSort, List.mem_map]
  constructor
  · rintro ⟨q, hq, heq⟩
    cases heq
    exact ⟨hq, rfl⟩
  · rintro ⟨hp, rfl⟩
    exact ⟨p, hp, rfl⟩

/-! Concrete fixtures used by the witnesses and counterexamples. -/

def alice : User :=
  { id := 1, username := "alice", first_name := "A", last_name := "L", email := "a" }

def bob : User :=
  { id := 2, username := "bob", first_name := "B", last_name := "M", email := "b" }

def newsCategory : Category :=
  { id := 1, title := "News", slug := "news", is_published := true }

def hiddenCategory : Category :=
  { id := 2, title := "Hidden", slug := "hidden", is_published := false }

def visiblePost : Post :=
  { id := 1, title := "t1", text := "x", image := none, author := 1,
    category := 1, location := none, is_published := true, pub_date := 5,
    created_at := 1 }

def scheduledPost : Post :=
  { id := 2, title := "t2", text := "y", image := none, author := 1,
    category := 1, location := none, is_published := true, pub_date := 100,
    created_at := 2 }

def hiddenCatPost : Post :=
  { id := 3, title := "t3", text := "z", image := none, author := 1,
    category := 2, location := none, is_published := true, pub_date := 5,
    created_at := 3 }

def someComment : Comment :=
  { id := 1, text := "hi", post := 1, author := 2, created_at := 4 }

def baseState : State :=
  { users := [alice, bob], categories := [newsCategory, hiddenCategory],
    posts := [visiblePost, scheduledPost, hiddenCatPost],
    comments := [someComment] }

/-- C1: the post detail view renders the post iff the viewer is its author
or the post is publicly visible (`is_published`, category `is_published`,
`pub_date ≤ now`); in every other case the response is NotFound, so an
invisible post is indistinguishable from an absent one. -/
theorem C1_post_detail_visibility (s : State) (v : Viewer) (post_id now : Nat)
    (p : Post) (c : Category)
    (hp : findPost s post_id = some p)
    (hc : findCategory s p.category = some c) :
    (post_detail_dispatch s v post_id now = .renderDetail p (commentsOf s p.id) ↔
      (viewerIsAuthor v p.author = true ∨
        (p.is_published = true ∧ c.is_published = true ∧ p.pub_date ≤ now)))
    ∧ (post_detail_dispatch s v post_id now ≠ .renderDetail p (commentsOf s p.id) →
        post_detail_dispatch s v post_id now = .notFound) := by
  cases hb1 : viewerIsAuthor v p.author <;>
    cases hb2 : p.is_published <;>
      cases hb3 : c.is_published <;>
        by_cases hb4 : now < p.pub_date <;>
          simp_all [post_detail_dispatch, hp, categoryIsPublished, hc]

/-- C1 witness: a concrete instantiation of `C1_post_detail_visibility` —
the anonymous viewer and the published past-dated post in a published
category, at time 10. -/
theorem C1_witness :
    (findPost baseState 1 = some visiblePost
      ∧ findCategory baseState visiblePost.category = some newsCategory)
    ∧ ((post_detail_dispatch baseState .anon 1 10 =
          .renderDetail visiblePost (commentsOf baseState visiblePost.id) ↔
        (viewerIsAuthor .anon visiblePost.author = true ∨
          (visiblePost.is_published = true ∧ newsCategory.is_published = true ∧
            visiblePost.pub_date ≤ 10)))
      ∧ (post_detail_dispatch baseState .anon 1 10 ≠
            .renderDetail visiblePost (commentsOf baseState visiblePost.id) →
          post_detail_dispatch baseState .anon 1 10 = .notFound)) :=
  ⟨⟨by decide, by decide⟩,
    C1_post_detail_visibility baseState .anon 1 10 visiblePost newsCategory
      (by decide) (by decide)⟩

def someForm : PostFormData :=
  { title := "t", text := "w", location := none, category := 1,
    image := none, pub_date := 5 }

def draftComment : Comment :=
  { id := 99, text := "draft", post := 0, author := 7, created_at := 9 }

/-- C2: for every post or comment and every viewer other than its author —
the anonymous viewer included — an edit or delete request performs no
mutation and raises no authorization error: the store is unchanged and the
viewer is redirected to the item's detail page. -/
theorem C2_non_author_redirected (s : State) (v : Viewer)
    (post_id comment_id : Nat) (valid : Bool) (f : PostFormData) (t : String)
    (p : Post) (c : Comment)
    (hp : findPost s post_id = some p)
    (hpa : viewerIsAuthor v p.author = false)
    (hc : findComment s comment_id post_id = some c)
    (hca : viewerIsAuthor v c.author = false) :
    post_update_dispatch s v post_id valid f = (s, .redirectToDetail post_id)
    ∧ post_delete_dispatch s v post_id = (s, .redirectToDetail post_id)
    ∧ comment_update_dispatch s v post_id comment_id valid t
        = (s, .redirectToDetail post_id)
    ∧ comment_delete_dispatch s v post_id comment_id
        = (s, .redirectToDetail post_id) := by
  simp [post_update_dispatch, post_delete_dispatch, comment_update_dispatch,
        comment_delete_dispatch, hp, hpa, hc, hca]

/-- C2 witness: the authenticated viewer with id 3 is neither the author of
post 1 nor of comment 1; all four mutation endpoints redirect it to the
post's detail page and leave the store unchanged. -/
theorem C2_witness :
    (findPost baseState 1 = some visiblePost
      ∧ viewerIsAuthor (.auth 3) visiblePost.author = false
      ∧ findComment baseState 1 1 = some someComment
      ∧ viewerIsAuthor (.auth 3) someComment.author = false)
    ∧ (post_update_dispatch baseState (.auth 3) 1 true someForm
          = (baseState, .redirectToDetail 1)
      ∧ post_delete_dispatch baseState (.auth 3) 1
          = (baseState, .redirectToDetail 1)
      ∧ comment_update_dispatch baseState (.auth 3) 1 1 true "e"
          = (baseState, .redirectToDetail 1)
      ∧ comment_delete_dispatch baseState (.auth 3) 1 1
          = (baseState, .redirectToDetail 1)) :=
  ⟨⟨by decide, by decide, by decide, by decide⟩,
    C2_non_author_redirected baseState (.auth 3) 1 1 true someForm "e"
      visiblePost someComment (by decide) (by decide) (by decide) (by decide)⟩

/-- C3 counterexample: an anonymous edit request on an existing post is
answered by the ownership guard's redirect to the post's detail page — it
is not redirected to the login flow. -/
theorem C3_counterexample :
    (post_update_dispatch baseState .anon 1 true someForm).2
        = Response.redirectToDetail 1
    ∧ (post_update_dispatch baseState .anon 1 true someForm).2
        ≠ Response.redirectToLogin := by
  decide

/-- C3 (amended): for an edit or delete request on an existing item from an
anonymous viewer, the ownership guard runs first and — the anonymous viewer
being no item's author — redirects to the item's detail page with the store
unchanged; the login redirect of the authentication mixin is never the
response. -/
theorem C3_anonymous_reaches_guard (s : State) (post_id comment_id : Nat)
    (valid : Bool) (f : PostFormData) (t : String) (p : Post) (c : Comment)
    (hp : findPost s post_id = some p)
    (hc : findComment s comment_id post_id = some c) :
    (post_update_dispatch s .anon post_id valid f = (s, .redirectToDetail post_id)
      ∧ post_delete_dispatch s .anon post_id = (s, .redirectToDetail post_id)
      ∧ comment_update_dispatch s .anon post_id comment_id valid t
          = (s, .redirectToDetail post_id)
      ∧ comment_delete_dispatch s .anon post_id comment_id
          = (s, .redirectToDetail post_id))
    ∧ (post_update_dispatch s .anon post_id valid f).2
        ≠ Response.redirectToLogin := by
  simp [post_update_dispatch, post_delete_dispatch, comment_update_dispatch,
        comment_delete_dispatch, hp, hc, viewerIsAuthor]

/-- C3 witness: a concrete instantiation of `C3_anonymous_reaches_guard` at
post 1 and comment 1 of the fixture store. -/
theorem C3_witness :
    (findPost baseState 1 = some visiblePost
      ∧ findComment baseState 1 1 = some someComment)
    ∧ ((post_update_dispatch baseState .anon 1 true someForm
          = (baseState, .redirectToDetail 1)
        ∧ post_delete_dispatch baseState .anon 1
          = (baseState, .redirectToDetail 1)
        ∧ comment_update_dispatch baseState .anon 1 1 true "e"
          = (baseState, .redirectToDetail 1)
        ∧ comment_delete_dispatch baseState .anon 1 1
          = (baseState, .redirectToDetail 1))
      ∧ (post_update_dispatch baseState .anon 1 true someForm).2
          ≠ Response.redirectToLogin) :=
  ⟨⟨by decide, by decide⟩,
    C3_anonymous_reaches_guard baseState 1 1 true someForm "e"
      visiblePost someComment (by decide) (by decide)⟩

/-- C5: the persisted author of a freshly submitted comment or post is the
current authenticated viewer, whatever author value the client-built form
instance carried. -/
theorem C5_author_forced_server_side (s : State) (u post_id : Nat)
    (ci : Comment) (fp : Post) (post : Post)
    (hp : findPost s post_id = some post) :
    (∃ newC, (add_comment s (.auth u) post_id true ci).1.comments
        = s.comments ++ [newC]
      ∧ newC.author = u ∧ newC.text = ci.text ∧ newC.post = post.id)
    ∧ (∃ newP, (post_create_dispatch s (.auth u) true fp).1.posts
        = s.posts ++ [newP]
      ∧ newP.author = u ∧ newP.title = fp.title ∧ newP.text = fp.text) := by
  constructor
  · refine ⟨{ ci with post := post.id, author := u }, ?_, rfl, rfl, rfl⟩
    simp [add_comment, hp, isAuthenticated, viewerId]
  · refine ⟨{ fp with author := u }, ?_, rfl, rfl, rfl⟩
    simp [post_create_dispatch, isAuthenticated, viewerId]

/-- C5 witness: viewer 2 submits `draftComment`, whose client-supplied
author field is 7; the persisted comment's author is 2. -/
theorem C5_witness :
    findPost baseState 1 = some visiblePost
    ∧ ((∃ newC, (add_comment baseState (.auth 2) 1 true draftComment).1.comments
          = baseState.comments ++ [newC]
        ∧ newC.author = 2 ∧ newC.text = draftComment.text
        ∧ newC.post = visiblePost.id)
      ∧ (∃ newP, (post_create_dispatch baseState (.auth 2) true scheduledPost).1.posts
          = baseState.posts ++ [newP]
        ∧ newP.author = 2 ∧ newP.title = scheduledPost.title
        ∧ newP.text = scheduledPost.text)) :=
  ⟨by decide,
    C5_author_forced_server_side baseState 2 1 draftComment scheduledPost
      visiblePost (by decide)⟩

/-- C6: an edit submission on a post by an authenticated viewer other than
its author leaves the store — the post's every field included — unchanged;
the viewer is redirected away before any update is applied. -/
theorem C6_non_author_edit_is_frame (s : State) (u post_id : Nat)
    (valid : Bool) (f : PostFormData) (p : Post)
    (hp : findPost s post_id = some p) (hne : u ≠ p.author) :
    (post_update_dispatch s (.auth u) post_id valid f).1 = s
    ∧ findPost (post_update_dispatch s (.auth u) post_id valid f).1 post_id
        = some p
    ∧ (post_update_dispatch s (.auth u) post_id valid f).2
        = .redirectToDetail post_id := by
  have hb : viewerIsAuthor (.auth u) p.author = false := by
    simp only [viewerIsAuthor, beq_eq_false_iff_ne, ne_eq]
    exact hne
  simp [post_update_dispatch, hp, hb]

/-- C6 witness: viewer 2 submits an edit on post 1 (authored by user 1);
the store is unchanged and post 1 keeps its fields. -/
theorem C6_witness :
    (findPost baseState 1 = some visiblePost ∧ (2 : Nat) ≠ visiblePost.author)
    ∧ ((post_update_dispatch baseState (.auth 2) 1 true someForm).1 = baseState
      ∧ findPost (post_update_dispatch baseState (.auth 2) 1 true someForm).1 1
          = some visiblePost
      ∧ (post_update_dispatch baseState (.auth 2) 1 true someForm).2
          = .redirectToDetail 1) :=
  ⟨⟨by decide, by decide⟩,
    C6_non_author_edit_is_frame baseState 2 1 true someForm visiblePost
      (by decide) (by decide)⟩

/-- C4: home and category feeds contain a post exactly when it is publicly
visible — `is_published`, category `is_published`, `pub_date ≤ now` — and
both are ordered by recency; an unpublished category moreover makes the
whole category page absent. -/
theorem C4_feeds_public_visibility (s : State) (now : Nat) (p : Post)
    (c : Category)
    (hc : findCategory s p.category = some c)
    (huniq : ∀ d ∈ s.categories, d.slug = c.slug → d = c) :
    ((∃ n, (p, n) ∈ postList_get_queryset s now) ↔
      (p ∈ s.posts ∧ p.is_published = true ∧ c.is_published = true
        ∧ p.pub_date ≤ now))
    ∧ (∀ l, category_posts s c.slug now = some l →
        (p ∈ l ↔ (p ∈ s.posts ∧ p.is_published = true ∧ c.is_published = true
          ∧ p.pub_date ≤ now)))
    ∧ (c.is_published = false → category_posts s c.slug now = none)
    ∧ List.Pairwise (fun a b : Post × Nat => b.1.pub_date ≤ a.1.pub_date)
        (postList_get_queryset s now)
    ∧ (∀ l, category_posts s c.slug now = some l →
        List.Pairwise (fun a b : Post => b.pub_date ≤ a.pub_date) l) := by
  have hcp : categoryIsPublished s p = c.is_published := by
    simp [categoryIsPublished, hc]
  have hc' : s.categories.find? (fun d => d.id == p.category) = some c := hc
  have hcid : c.id = p.category := by
    have h := List.find?_some hc'
    exact beq_iff_eq.mp h
  refine ⟨?_, ?_, ?_, ?_, ?_⟩
  · constructor
    · rintro ⟨n, hn⟩
      unfold postList_get_queryset at hn
      rw [mem_annotated_feed, List.mem_filter] at hn
      obtain ⟨⟨hps, hpred⟩, -⟩ := hn
      simp only [Bool.and_eq_true, decide_eq_true_eq] at hpred
      rw [hcp] at hpred
      exact ⟨hps, hpred.1.2, hpred.2, hpred.1.1⟩
    · rintro ⟨hps, hpub, hcpub, hdate⟩
      refine ⟨comment_count s p, ?_⟩
      unfold postList_get_queryset
      rw [mem_annotated_feed]
      refine ⟨List.mem_filter.mpr ⟨hps, ?_⟩, rfl⟩
      simp only [Bool.and_eq_true, decide_eq_true_eq]
      rw [hcp]
      exact ⟨⟨hdate, hpub⟩, hcpub⟩
  · intro l hl
    unfold category_posts at hl
    split at hl
    · cases hl
    · rename_i d hfind
      have hdmem := List.mem_of_find?_eq_some hfind
      have hdp := List.find?_some hfind
      simp only [Bool.and_eq_true, beq_iff_eq] at hdp
      have hdc : d = c := huniq d hdmem hdp.1
      subst hdc
      injection hl with hl
      subst hl
      unfold defaultPostOrdering
      rw [List.mem_mergeSort, List.mem_filter]
      constructor
      · rintro ⟨hps, hpred⟩
        simp only [Bool.and_eq_true, beq_iff_eq, decide_eq_true_eq] at hpred
        exact ⟨hps, hpred.1.2, hdp.2, hpred.2⟩
      · rintro ⟨hps, hpub, hcpub, hdate⟩
        refine ⟨hps, ?_⟩
        simp only [Bool.and_eq_true, beq_iff_eq, decide_eq_true_eq]
        exact ⟨⟨hcid.symm, hpub⟩, hdate⟩
  · intro hcpub
    unfold category_posts
    cases hfind : s.categories.find? (fun d => d.slug == c.slug && d.is_published) with
    | none => rfl
    | some d =>
        exfalso
        have hdmem := List.mem_of_find?_eq_some hfind
        have hdp := List.find?_some hfind
        simp only [Bool.and_eq_true, beq_iff_eq] at hdp
        have hdc : d = c := huniq d hdmem hdp.1
        rw [hdc] at hdp
        rw [hdp.2] at hcpub
        cases hcpub
  · unfold postList_get_queryset
    exact pairwise_recency_ann _
  · intro l hl
    unfold category_posts at hl
    split at hl
    · cases hl
    · injection hl with hl
      subst hl
      exact pairwise_recency_posts _

/-- C4 witness: the fixture post in the unpublished category — published,
past-dated — is in neither feed at time 10, and its category page is
absent. -/
theorem C4_witness :
    (findCategory baseState hiddenCatPost.category = some hiddenCategory
      ∧ (∀ d ∈ baseState.categories, d.slug = hiddenCategory.slug →
          d = hiddenCategory))
    ∧ (((∃ n, (hiddenCatPost, n) ∈ postList_get_queryset baseState 10) ↔
        (hiddenCatPost ∈ baseState.posts ∧ hiddenCatPost.is_published = true
          ∧ hiddenCategory.is_published = true ∧ hiddenCatPost.pub_date ≤ 10))
      ∧ (∀ l, category_posts baseState hiddenCategory.slug 10 = some l →
          (hiddenCatPost ∈ l ↔ (hiddenCatPost ∈ baseState.posts
            ∧ hiddenCatPost.is_published = true
            ∧ hiddenCategory.is_published = true
            ∧ hiddenCatPost.pub_date ≤ 10)))
      ∧ (hiddenCategory.is_published = false →
          category_posts baseState hiddenCategory.slug 10 = none)
      ∧ List.Pairwise (fun a b : Post × Nat => b.1.pub_date ≤ a.1.pub_date)
          (postList_get_queryset baseState 10)
      ∧ (∀ l, category_posts baseState hiddenCategory.slug 10 = some l →
          List.Pairwise (fun a b : Post => b.pub_date ≤ a.pub_date) l)) :=
  ⟨⟨by decide, by decide⟩,
    C4_feeds_public_visibility baseState 10 hiddenCatPost hiddenCategory
      (by decide) (by decide)⟩

/-- C7: the profile feed — which takes no viewer parameter at all — lists
exactly the posts whose author bears the requested username, with no
visibility filter, each annotated with its comment count, ordered by
recency. -/
theorem C7_profile_feed_unfiltered (s : State) (username : String)
    (p : Post) (n : Nat) :
    ((p, n) ∈ profile_get_queryset s username ↔
      (p ∈ s.posts ∧ authorUsernameIs s p username = true
        ∧ n = comment_count s p))
    ∧ List.Pairwise (fun a b : Post × Nat => b.1.pub_date ≤ a.1.pub_date)
        (profile_get_queryset s username) := by
  constructor
  · unfold profile_get_queryset
    rw [mem_annotated_feed, List.mem_filter]
    tauto
  · unfold profile_get_queryset
    exact pairwise_recency_ann _

/-- C8 counterexample: an invalid comment submission by an authenticated
viewer on an existing post persists nothing, but it is answered by a
redirect to the post's detail page — the submission form is not
re-rendered. -/
theorem C8_counterexample :
    (add_comment baseState (.auth 2) 1 false draftComment).1 = baseState
    ∧ (add_comment baseState (.auth 2) 1 false draftComment).2
        = Response.redirectToDetail 1
    ∧ (add_comment baseState (.auth 2) 1 false draftComment).2
        ≠ Response.renderForm := by
  decide

/-- C8 (amended): a form failing validation persists nothing; the post
submission form is re-rendered with its errors, but an invalid comment
submission is instead redirected to the post's detail page, its errors
discarded. -/
theorem C8_invalid_form_no_persistence (s : State) (u post_id : Nat)
    (ci : Comment) (fp : Post) (post : Post)
    (hp : findPost s post_id = some post) :
    add_comment s (.auth u) post_id false ci = (s, .redirectToDetail post.id)
    ∧ post_create_dispatch s (.auth u) false fp = (s, .renderForm) := by
  constructor
  · simp [add_comment, hp, isAuthenticated]
  · simp [post_create_dispatch, isAuthenticated]

/-- C8 witness: a concrete instantiation of
`C8_invalid_form_no_persistence` at post 1 of the fixture store. -/
theorem C8_witness :
    findPost baseState 1 = some visiblePost
    ∧ (add_comment baseState (.auth 2) 1 false draftComment
        = (baseState, .redirectToDetail visiblePost.id)
      ∧ post_create_dispatch baseState (.auth 2) false scheduledPost
        = (baseState, .renderForm)) :=
  ⟨by decide,
    C8_invalid_form_no_persistence baseState 2 1 draftComment scheduledPost
      visiblePost (by decide)⟩

/-- C9: the comment endpoint checks only that the post exists, never its
visibility: an authenticated viewer's valid comment on a post whose detail
view answers this very viewer NotFound is persisted all the same, and the
viewer is redirected to the detail page. -/
theorem C9_comment_ignores_visibility (s : State) (u post_id now : Nat)
    (ci : Comment) (post : Post)
    (hp : findPost s post_id = some post)
    (hna : viewerIsAuthor (.auth u) post.author = false)
    (hinv : post.is_published = false ∨ categoryIsPublished s post = false
        ∨ now < post.pub_date) :
    (add_comment s (.auth u) post_id true ci).1.comments
        = s.comments ++ [{ ci with post := post.id, author := u }]
    ∧ (add_comment s (.auth u) post_id true ci).2 = .redirectToDetail post.id
    ∧ post_detail_dispatch s (.auth u) post_id now = .notFound := by
  refine ⟨?_, ?_, ?_⟩
  · simp [add_comment, hp, isAuthenticated, viewerId]
  · simp [add_comment, hp, isAuthenticated]
  · have hcond : (!(viewerIsAuthor (.auth u) post.author) &&
        (!post.is_published || !(categoryIsPublished s post)
          || decide (now < post.pub_date))) = true := by
      rcases hinv with h | h | h <;> simp [hna, h]
    unfold post_detail_dispatch
    rw [hp]
    simp [hcond]

/-- C9 witness: viewer 2 comments on the scheduled post 2 (pub date 100,
time 10, author 1): the detail view answers NotFound to this viewer, yet
the comment is persisted. -/
theorem C9_witness :
    (findPost baseState 2 = some scheduledPost
      ∧ viewerIsAuthor (.auth 2) scheduledPost.author = false
      ∧ (scheduledPost.is_published = false
        ∨ categoryIsPublished baseState scheduledPost = false
        ∨ 10 < scheduledPost.pub_date))
    ∧ ((add_comment baseState (.auth 2) 2 true draftComment).1.comments
        = baseState.comments
          ++ [{ draftComment with post := scheduledPost.id, author := 2 }]
      ∧ (add_comment baseState (.auth 2) 2 true draftComment).2
        = .redirectToDetail scheduledPost.id
      ∧ post_detail_dispatch baseState (.auth 2) 2 10 = .notFound) :=
  ⟨⟨by decide, by decide, by decide⟩,
    C9_comment_ignores_visibility baseState 2 2 10 draftComment scheduledPost
      (by decide) (by decide) (by decide)⟩

/-- The user table after a profile edit, as an equation (the editable
fields rewritten on the viewer's own row, every other row untouched). -/
theorem profile_update_users_eq (s : State) (u requested_pk : Nat)
    (f : UserFormData) :
    (profile_update_dispatch s (.auth u) requested_pk true f).1.users
      = s.users.map (fun w => if w.id == u then applyUserForm w f else w) :=
  rfl

def newProfileForm : UserFormData :=
  { first_name := "N", last_name := "P", username := "neo", email := "n" }

/-- C10: a profile edit always operates on the current viewer's own user
record: its outcome is independent of any identifier carried by the
request, every other user's record is untouched, and the viewer's record is
the one rewritten by the form. -/
theorem C10_profile_edit_targets_viewer (s : State) (u requested_pk : Nat)
    (valid : Bool) (f : UserFormData) :
    profile_update_dispatch s (.auth u) requested_pk valid f
      = profile_update_dispatch s (.auth u) 0 valid f
    ∧ (∀ w ∈ s.users, w.id ≠ u →
        w ∈ (profile_update_dispatch s (.auth u) requested_pk true f).1.users)
    ∧ (∀ w ∈ s.users, w.id = u →
        applyUserForm w f
          ∈ (profile_update_dispatch s (.auth u) requested_pk true f).1.users) := by
  refine ⟨rfl, ?_, ?_⟩
  · intro w hw hne
    have hb : (w.id == u) = false := beq_eq_false_iff_ne.mpr hne
    rw [profile_update_users_eq]
    exact List.mem_map.mpr ⟨w, hw, by simp [hb]⟩
  · intro w hw heq
    have hb : (w.id == u) = true := beq_iff_eq.mpr heq
    rw [profile_update_users_eq]
    exact List.mem_map.mpr ⟨w, hw, by simp [hb]⟩

/-- C10 witness: user 1 edits their profile while the request carries the
identifier 42; the outcome equals the one with no identifier at all, user
2's record is untouched, and user 1's record is the one rewritten. -/
theorem C10_witness :
    profile_update_dispatch baseState (.auth 1) 42 true newProfileForm
      = profile_update_dispatch baseState (.auth 1) 0 true newProfileForm
    ∧ (∀ w ∈ baseState.users, w.id ≠ 1 →
        w ∈ (profile_update_dispatch baseState (.auth 1) 42 true
            newProfileForm).1.users)
    ∧ (∀ w ∈ baseState.users, w.id = 1 →
        applyUserForm w newProfileForm
          ∈ (profile_update_dispatch baseState (.auth 1) 42 true
              newProfileForm).1.users) :=
  C10_profile_edit_targets_viewer baseState 1 42 true newProfileForm
